import Mathlib

/-!
# Verification of the simulated API layer (`src/lib/api.ts`)

A shallow embedding of the course-management mock API: the in-memory store,
the fault-injecting mock client, the generic retry/backoff wrapper, the public
service wrappers with error translation, and the health check.

Modelling conventions:
* JavaScript numbers used as course identifiers are modelled by `JsId`, which
  is an integer extended with `-Infinity` (the value of `Math.max()` applied
  to an empty argument list, which the id-assignment code can produce on an
  empty store).  All identifiers actually occurring in the program are
  integers.
* `Math.random()` is modelled by a pre-sampled stream `rng : Nat → Rat`
  together with a cursor `k`; each draw reads `rng k` and advances `k`.
* Simulated latency (`setTimeout`) is modelled by a virtual clock `now`
  (milliseconds); suspending for `ms` advances `now` by `ms`.
* A promise that fulfills with `a` is modelled as `Except.ok a`; a promise
  that rejects with error `e` as `Except.error e`.  Thrown values are
  `ApiErr`: `network` for `NetworkError`, `validation` for `ValidationError`,
  `generic` for a plain `Error`.
* `ApiResponse.timestamp` (`new Date().toISOString()`) is a wall-clock string
  irrelevant to every claim and is omitted from the embedding.
-/

set_option autoImplicit false

/-- A JavaScript number in id position: an integer or `-Infinity`
(the result of `Math.max()` with no arguments). -/
inductive JsId where
  | negInf
  | int (n : ℤ)
deriving DecidableEq, Repr

/-- `Math.max` on two `JsId`s: `-Infinity` is the identity. -/
def JsId.max : JsId → JsId → JsId
  | JsId.negInf, y => y
  | x, JsId.negInf => x
  | JsId.int a, JsId.int b => JsId.int (Max.max a b)

/-- Adding 1 to a `JsId`: in JavaScript `-Infinity + 1 = -Infinity`. -/
def JsId.addOne : JsId → JsId
  | JsId.negInf => JsId.negInf
  | JsId.int n => JsId.int (n + 1)

/-- Strict order on `JsId` (`-Infinity` below every integer). -/
def JsId.lt : JsId → JsId → Bool
  | JsId.negInf, JsId.int _ => true
  | JsId.int a, JsId.int b => decide (a < b)
  | _, JsId.negInf => false

/-- How JavaScript string interpolation renders an id (`-Infinity` prints as
`-Infinity`). -/
def idStr : JsId → String
  | JsId.negInf => "-Infinity"
  | JsId.int n => toString n

/-- The `Course` record (`interface Course`).  Optional interface fields are
`Option`s; `none` models an absent (`undefined`) property. -/
structure Course where
  id : JsId
  name : String
  description : Option String := none
  duration : Option String := none
  instructor : Option String := none
  enrollmentCount : Option ℤ := none
  isActive : Option Bool := none
deriving DecidableEq, Repr

/-- The argument of `createCourse`: `Omit<Course, "id">`. -/
structure CourseInput where
  name : String
  description : Option String := none
  duration : Option String := none
  instructor : Option String := none
  enrollmentCount : Option ℤ := none
  isActive : Option Bool := none
deriving DecidableEq, Repr

/-- The argument of `updateCourse`: `Partial<Course>`.  A `none` field is an
absent key, which the spread merge leaves unchanged; a `some v` field is a
present key overwriting the record's value with `v`. -/
structure CoursePatch where
  id : Option JsId := none
  name : Option String := none
  description : Option (Option String) := none
  duration : Option (Option String) := none
  instructor : Option (Option String) := none
  enrollmentCount : Option (Option ℤ) := none
  isActive : Option (Option Bool) := none
deriving DecidableEq, Repr

/-- The shallow spread merge `{ ...c, ...p }` used by `updateCourse`. -/
def Course.mergePatch (c : Course) (p : CoursePatch) : Course :=
  { id := p.id.getD c.id,
    name := p.name.getD c.name,
    description := p.description.getD c.description,
    duration := p.duration.getD c.duration,
    instructor := p.instructor.getD c.instructor,
    enrollmentCount := p.enrollmentCount.getD c.enrollmentCount,
    isActive := p.isActive.getD c.isActive }

/-- `interface ApiResponse<T>` (the wall-clock `timestamp` field is omitted,
see the module docstring). -/
structure ApiResponse (α : Type) where
  data : α
  success : Bool
  message : Option String := none
deriving DecidableEq, Repr

/-- A thrown JavaScript value: `NetworkError(message, status)`,
`ValidationError(message)`, or a plain `Error(message)`. -/
inductive ApiErr where
  | network (message : String) (status : ℤ)
  | validation (message : String)
  | generic (message : String)
deriving DecidableEq, Repr

/-- `const API_CONFIG = { ... }`. -/
structure ApiConfig where
  baseUrl : String
  timeout : ℕ
  retryAttempts : ℕ
  retryDelay : ℕ

def API_CONFIG : ApiConfig :=
  { baseUrl := "https://api.mockapi.io/v1",
    timeout := 10000,
    retryAttempts := 3,
    retryDelay := 1000 }

/-- The state threaded through an execution: the singleton `MockApiClient`'s
`courses` array, the pre-sampled `Math.random()` outputs with their cursor,
and the virtual clock (ms). -/
structure ClientState where
  courses : List Course
  rng : ℕ → ℚ
  k : ℕ
  now : ℕ

/-- One `Math.random()` call: read the next pre-sampled value, advance the
cursor. -/
def ClientState.draw (s : ClientState) : ℚ × ClientState :=
  (s.rng s.k, { s with k := s.k + 1 })

/-- `simulateNetworkDelay(ms)` (default `ms = 800` at the TypeScript call
sites that pass no argument): suspend for `ms`, i.e. advance the virtual
clock. -/
def simulateNetworkDelay (ms : ℕ) (s : ClientState) : ClientState :=
  { s with now := s.now + ms }

/-- The suspension `await new Promise(resolve => setTimeout(resolve, ms))`
performed between retry attempts: advance the virtual clock. -/
def waitState (ms : ℕ) (s : ClientState) : ClientState :=
  { s with now := s.now + ms }

/-- `String.prototype.trim`: remove leading and trailing whitespace.
(Defined by structural recursion over the character list so that it
evaluates by kernel reduction.) -/
def jsTrim (s : String) : String :=
  String.mk (((s.data.dropWhile Char.isWhitespace).reverse.dropWhile Char.isWhitespace).reverse)

/-- `Array.prototype.findIndex`, with `none` for `-1`. -/
def findIndex {α : Type} (p : α → Bool) : List α → Option ℕ
  | [] => none
  | x :: xs => if p x then some 0 else (findIndex p xs).map (· + 1)

/-- `Math.max(...courses.map(c => c.id))`: fold of `JsId.max` over the ids,
starting from `Math.max()`'s empty value `-Infinity`. -/
def maxId (courses : List Course) : JsId :=
  (courses.map (fun c => c.id)).foldr JsId.max JsId.negInf

/-- A default record for the (never taken) out-of-bounds read after a
successful `findIndex`; `findIndex_lt_length` below shows it is never used. -/
def dummyCourse : Course :=
  { id := JsId.negInf, name := "" }

/-- The seed data of `MockApiClient.courses`. -/
def initialCourses : List Course :=
  [ { id := JsId.int 1, name := "HTML Basics",
      description := some "Learn the fundamentals of HTML markup language",
      duration := some "4 weeks", instructor := some "Sarah Johnson",
      enrollmentCount := some 156, isActive := some true },
    { id := JsId.int 2, name := "CSS Mastery",
      description := some "Master CSS styling and responsive design",
      duration := some "6 weeks", instructor := some "Mike Chen",
      enrollmentCount := some 203, isActive := some true },
    { id := JsId.int 3, name := "JavaScript Pro",
      description := some "Advanced JavaScript concepts and ES6+ features",
      duration := some "8 weeks", instructor := some "Alex Rodriguez",
      enrollmentCount := some 189, isActive := some true },
    { id := JsId.int 4, name := "React In Depth",
      description := some "Build modern web applications with React",
      duration := some "10 weeks", instructor := some "Emily Davis",
      enrollmentCount := some 245, isActive := some true },
    { id := JsId.int 5, name := "Node.js Backend",
      description := some "Server-side development with Node.js and Express",
      duration := some "8 weeks", instructor := some "David Kim",
      enrollmentCount := some 134, isActive := some true } ]

/-- `MockApiClient.fetchCourses`: 800ms latency; then a 10% network fault,
else a 5% validation fault, else the active courses (truthy `isActive`
filter). -/
def MockApiClient.fetchCourses (s : ClientState) :
    Except ApiErr (ApiResponse (List Course)) × ClientState :=
  let s0 := simulateNetworkDelay 800 s
  let d1 := s0.draw
  if d1.1 < mkRat 1 10 then
    (Except.error (ApiErr.network "Service temporarily unavailable" 503), d1.2)
  else
    let d2 := d1.2.draw
    if d2.1 < mkRat 1 20 then
      (Except.error (ApiErr.validation "Invalid request parameters"), d2.2)
    else
      (Except.ok { data := d2.2.courses.filter (fun c => decide (c.isActive = some true)),
                   success := true,
                   message := some "Courses fetched successfully" }, d2.2)

/-- `MockApiClient.fetchCourseById`: 400ms latency; finds the first record
with the given id that is active (truthy `isActive`); 404 `NetworkError` when
there is none. -/
def MockApiClient.fetchCourseById (id : JsId) (s : ClientState) :
    Except ApiErr (ApiResponse Course) × ClientState :=
  let s0 := simulateNetworkDelay 400 s
  match s0.courses.find? (fun c => decide (c.id = id) && decide (c.isActive = some true)) with
  | none =>
      (Except.error (ApiErr.network ("Course with ID " ++ idStr id ++ " not found") 404), s0)
  | some c =>
      (Except.ok { data := c, success := true,
                   message := some "Course fetched successfully" }, s0)

/-- `MockApiClient.createCourse`: 1200ms latency; `ValidationError` when the
name is falsy or its trim is shorter than 3 characters; otherwise builds
`{ ...courseData, id: max(ids) + 1, enrollmentCount: 0, isActive: true }`
(the explicit fields overwrite any caller-supplied values), pushes it and
returns it. -/
def MockApiClient.createCourse (courseData : CourseInput) (s : ClientState) :
    Except ApiErr (ApiResponse Course) × ClientState :=
  let s0 := simulateNetworkDelay 1200 s
  if courseData.name = "" ∨ (jsTrim courseData.name).length < 3 then
    (Except.error (ApiErr.validation "Course name must be at least 3 characters long"), s0)
  else
    let newCourse : Course :=
      { id := (maxId s0.courses).addOne,
        name := courseData.name,
        description := courseData.description,
        duration := courseData.duration,
        instructor := courseData.instructor,
        enrollmentCount := some 0,
        isActive := some true }
    (Except.ok { data := newCourse, success := true,
                 message := some "Course created successfully" },
     { s0 with courses := s0.courses ++ [newCourse] })

/-- `MockApiClient.updateCourse`: 900ms latency; `findIndex` on the id
(active or not); 404 `NetworkError` when absent; otherwise replaces the
record in place by the spread merge and returns the merged record. -/
def MockApiClient.updateCourse (id : JsId) (updates : CoursePatch) (s : ClientState) :
    Except ApiErr (ApiResponse Course) × ClientState :=
  let s0 := simulateNetworkDelay 900 s
  match findIndex (fun c => decide (c.id = id)) s0.courses with
  | none =>
      (Except.error (ApiErr.network ("Course with ID " ++ idStr id ++ " not found") 404), s0)
  | some i =>
      let merged := Course.mergePatch (s0.courses.getD i dummyCourse) updates
      (Except.ok { data := merged, success := true,
                   message := some "Course updated successfully" },
       { s0 with courses := s0.courses.set i merged })

/-- `MockApiClient.deleteCourse`: 600ms latency; `findIndex` on the id; 404
`NetworkError` when absent; otherwise soft delete: set `isActive = false` in
place and return `true`. -/
def MockApiClient.deleteCourse (id : JsId) (s : ClientState) :
    Except ApiErr (ApiResponse Bool) × ClientState :=
  let s0 := simulateNetworkDelay 600 s
  match findIndex (fun c => decide (c.id = id)) s0.courses with
  | none =>
      (Except.error (ApiErr.network ("Course with ID " ++ idStr id ++ " not found") 404), s0)
  | some i =>
      let old := s0.courses.getD i dummyCourse
      (Except.ok { data := true, success := true,
                   message := some "Course deleted successfully" },
       { s0 with courses := s0.courses.set i { old with isActive := some false } })

/-- The retry loop of `withRetry`, at loop counter `attempt`, with `fuel`
remaining retries before the final attempt (`fuel = maxAttempts - attempt`).
Returns the settled outcome with the final state, the number of invocations
of the operation, and the list of backoff waits performed (ms).

At `fuel = 0` the loop is at `attempt === maxAttempts`: a success returns and
a failure is rethrown without waiting.  Otherwise a failure waits
`delay * 2 ^ (attempt - 1)` and retries. -/
def withRetryGo {σ ε α : Type} (wait : ℕ → σ → σ) (op : σ → Except ε α × σ)
    (delay : ℕ) : ℕ → ℕ → σ → (Except ε α × σ) × ℕ × List ℕ
  | _, 0, s => (op s, 1, [])
  | attempt, fuel + 1, s =>
    match op s with
    | (Except.ok a, s1) => ((Except.ok a, s1), 1, [])
    | (Except.error _, s1) =>
      let bd := delay * 2 ^ (attempt - 1)
      let rest := withRetryGo wait op delay (attempt + 1) fuel (wait bd s1)
      (rest.1, rest.2.1 + 1, bd :: rest.2.2)

/-- `withRetry(operation, maxAttempts, delay)` for `maxAttempts ≥ 1` (the
TypeScript loop with `maxAttempts < 1` never runs its body and throws the
unassigned `lastError`; every call site uses the default `maxAttempts = 3`,
and every claim involving `withRetry` assumes `maxAttempts ≥ 1`). -/
def withRetry {σ ε α : Type} (wait : ℕ → σ → σ) (op : σ → Except ε α × σ)
    (maxAttempts delay : ℕ) (s : σ) : (Except ε α × σ) × ℕ × List ℕ :=
  withRetryGo wait op delay 1 (maxAttempts - 1) s

/-- The state reached after `fuel` further failed attempts starting at loop
counter `attempt` in state `s`: each failed attempt runs the operation and
then waits the backoff for that attempt. -/
def afterFails {σ ε α : Type} (wait : ℕ → σ → σ) (op : σ → Except ε α × σ)
    (delay : ℕ) : ℕ → ℕ → σ → σ
  | _, 0, s => s
  | attempt, fuel + 1, s =>
    afterFails wait op delay (attempt + 1) fuel (wait (delay * 2 ^ (attempt - 1)) (op s).2)

/-- The observable outcome of one public service call: the settled result,
the final state, the number of invocations of the wrapped store operation,
and the backoff waits performed. -/
structure RunResult (α : Type) where
  result : Except ApiErr α
  state : ClientState
  invocations : ℕ
  waits : List ℕ

/-- `coursesApi.getCourses`: retry-wrapped `fetchCourses`; on success the
`data` field is returned; on failure the error is translated — network
errors to `"Network error: <msg> (Status: <status>)"`, validation errors to
`"Validation error: <msg>"`, anything else to a generic message — always as
a plain `Error`. -/
def coursesApi.getCourses (s : ClientState) : RunResult (List Course) :=
  let w := withRetry waitState MockApiClient.fetchCourses
    API_CONFIG.retryAttempts API_CONFIG.retryDelay s
  { result :=
      match w.1.1 with
      | Except.ok resp => Except.ok resp.data
      | Except.error (ApiErr.network m st) =>
          Except.error (ApiErr.generic
            ("Network error: " ++ m ++ " (Status: " ++ toString st ++ ")"))
      | Except.error (ApiErr.validation m) =>
          Except.error (ApiErr.generic ("Validation error: " ++ m))
      | Except.error (ApiErr.generic _) =>
          Except.error (ApiErr.generic "An unexpected error occurred while fetching courses"),
    state := w.1.2,
    invocations := w.2.1,
    waits := w.2.2 }

/-- `coursesApi.getCourse`: retry-wrapped `fetchCourseById`; a `NetworkError`
is rethrown unchanged, any other failure becomes `Error("Failed to fetch
course")`. -/
def coursesApi.getCourse (id : JsId) (s : ClientState) : RunResult Course :=
  let w := withRetry waitState (MockApiClient.fetchCourseById id)
    API_CONFIG.retryAttempts API_CONFIG.retryDelay s
  { result :=
      match w.1.1 with
      | Except.ok resp => Except.ok resp.data
      | Except.error (ApiErr.network m st) => Except.error (ApiErr.network m st)
      | Except.error _ => Except.error (ApiErr.generic "Failed to fetch course"),
    state := w.1.2,
    invocations := w.2.1,
    waits := w.2.2 }

/-- `coursesApi.createCourse`: retry-wrapped `MockApiClient.createCourse`; a
`ValidationError` is rethrown unchanged, any other failure becomes
`Error("Failed to create course")`. -/
def coursesApi.createCourse (courseData : CourseInput) (s : ClientState) : RunResult Course :=
  let w := withRetry waitState (MockApiClient.createCourse courseData)
    API_CONFIG.retryAttempts API_CONFIG.retryDelay s
  { result :=
      match w.1.1 with
      | Except.ok resp => Except.ok resp.data
      | Except.error (ApiErr.validation m) => Except.error (ApiErr.validation m)
      | Except.error _ => Except.error (ApiErr.generic "Failed to create course"),
    state := w.1.2,
    invocations := w.2.1,
    waits := w.2.2 }

/-- `coursesApi.updateCourse`: retry-wrapped `MockApiClient.updateCourse`; a
`NetworkError` is rethrown unchanged, any other failure becomes
`Error("Failed to update course")`. -/
def coursesApi.updateCourse (id : JsId) (updates : CoursePatch) (s : ClientState) :
    RunResult Course :=
  let w := withRetry waitState (MockApiClient.updateCourse id updates)
    API_CONFIG.retryAttempts API_CONFIG.retryDelay s
  { result :=
      match w.1.1 with
      | Except.ok resp => Except.ok resp.data
      | Except.error (ApiErr.network m st) => Except.error (ApiErr.network m st)
      | Except.error _ => Except.error (ApiErr.generic "Failed to update course"),
    state := w.1.2,
    invocations := w.2.1,
    waits := w.2.2 }

/-- `coursesApi.deleteCourse`: retry-wrapped `MockApiClient.deleteCourse`; a
`NetworkError` is rethrown unchanged, any other failure becomes
`Error("Failed to delete course")`. -/
def coursesApi.deleteCourse (id : JsId) (s : ClientState) : RunResult Bool :=
  let w := withRetry waitState (MockApiClient.deleteCourse id)
    API_CONFIG.retryAttempts API_CONFIG.retryDelay s
  { result :=
      match w.1.1 with
      | Except.ok resp => Except.ok resp.data
      | Except.error (ApiErr.network m st) => Except.error (ApiErr.network m st)
      | Except.error _ => Except.error (ApiErr.generic "Failed to delete course"),
    state := w.1.2,
    invocations := w.2.1,
    waits := w.2.2 }

/-- `checkApiHealth`: races `coursesApi.getCourses()` against a 5000ms
timeout and resolves to a boolean.  In the virtual-time model the list call
settles at `(coursesApi.getCourses s).state.now` and the timeout rejects at
`s.now + 5000`; the race is won by the earlier event.  (With the fixed
latencies of the mock client the list call settles 800, 2600 or 5400ms after
the start, so the two sides never settle at the same instant; at a tie the
model lets the timeout win.)  The surrounding `try`/`catch` turns a win by a
rejected list call, or by the timeout, into `false`. -/
def checkApiHealth (s : ClientState) : Bool :=
  let r := coursesApi.getCourses s
  if r.state.now < s.now + 5000 then
    match r.result with
    | Except.ok _ => true
    | Except.error _ => false
  else false

/-! ## Basic unfolding lemmas for the retry loop -/

theorem withRetryGo_zero {σ ε α : Type} (wait : ℕ → σ → σ) (op : σ → Except ε α × σ)
    (delay attempt : ℕ) (s : σ) :
    withRetryGo wait op delay attempt 0 s = (op s, 1, []) := rfl

theorem withRetryGo_succ_ok {σ ε α : Type} (wait : ℕ → σ → σ) (op : σ → Except ε α × σ)
    (delay attempt fuel : ℕ) (s t : σ) (a : α) (h : op s = (Except.ok a, t)) :
    withRetryGo wait op delay attempt (fuel + 1) s = ((Except.ok a, t), 1, []) := by
  simp [withRetryGo, h]

theorem withRetryGo_succ_err {σ ε α : Type} (wait : ℕ → σ → σ) (op : σ → Except ε α × σ)
    (delay attempt fuel : ℕ) (s t : σ) (e : ε) (h : op s = (Except.error e, t)) :
    withRetryGo wait op delay attempt (fuel + 1) s =
      ((withRetryGo wait op delay (attempt + 1) fuel
          (wait (delay * 2 ^ (attempt - 1)) t)).1,
       (withRetryGo wait op delay (attempt + 1) fuel
          (wait (delay * 2 ^ (attempt - 1)) t)).2.1 + 1,
       delay * 2 ^ (attempt - 1) ::
         (withRetryGo wait op delay (attempt + 1) fuel
            (wait (delay * 2 ^ (attempt - 1)) t)).2.2) := by
  simp [withRetryGo, h]

/-- A first attempt that succeeds returns immediately: one invocation, no
backoff waits, the operation's own result and state. -/
theorem withRetryGo_first_ok {σ ε α : Type} (wait : ℕ → σ → σ) (op : σ → Except ε α × σ)
    (delay attempt fuel : ℕ) (s t : σ) (a : α) (h : op s = (Except.ok a, t)) :
    withRetryGo wait op delay attempt fuel s = ((Except.ok a, t), 1, []) := by
  cases fuel with
  | zero => simp [withRetryGo_zero, h]
  | succ fuel => exact withRetryGo_succ_ok wait op delay attempt fuel s t a h

/-! ## The retry loop under an operation that always fails -/

/-- If the operation fails on every state (with an error given by `err`),
the retry loop runs all its attempts: the result is the error of the last
invocation, the operation is invoked `fuel + 1` times, and the backoff waits
are `delay * 2 ^ (attempt - 1)`, doubling with each retry. -/
theorem withRetryGo_allFail {σ ε α : Type} (wait : ℕ → σ → σ) (op : σ → Except ε α × σ)
    (err : σ → ε) (delay : ℕ) (hop : ∀ t, (op t).1 = Except.error (err t)) :
    ∀ (fuel attempt : ℕ), 1 ≤ attempt → ∀ s : σ,
      withRetryGo wait op delay attempt fuel s =
        ((Except.error (err (afterFails wait op delay attempt fuel s)),
          (op (afterFails wait op delay attempt fuel s)).2),
         fuel + 1,
         (List.range fuel).map (fun i => delay * 2 ^ (attempt - 1 + i))) := by
  intro fuel
  induction fuel with
  | zero =>
    intro attempt _ s
    rcases hos : op s with ⟨r, t⟩
    have h := hop s
    rw [hos] at h
    simp only at h
    subst h
    simp [withRetryGo_zero, afterFails, hos]
  | succ fuel ih =>
    intro attempt hatt s
    rcases hos : op s with ⟨r, t⟩
    have h := hop s
    rw [hos] at h
    simp only at h
    subst h
    rw [withRetryGo_succ_err wait op delay attempt fuel s t _ hos]
    rw [ih (attempt + 1) (by omega) (wait (delay * 2 ^ (attempt - 1)) t)]
    have hafter : afterFails wait op delay attempt (fuel + 1) s =
        afterFails wait op delay (attempt + 1) fuel (wait (delay * 2 ^ (attempt - 1)) t) := by
      simp [afterFails, hos]
    rw [← hafter]
    refine congrArg _ ?_
    refine congrArg _ ?_
    rw [List.range_succ_eq_map, List.map_cons, List.map_map]
    refine congrArg₂ _ (by simp) ?_
    refine List.map_congr_left ?_
    intro i _
    simp only [Function.comp_apply]
    have : attempt - 1 + (i + 1) = attempt + 1 - 1 + i := by omega
    rw [this]

/-- Invariant-based failure lemma: if `P` is preserved by waiting and by the
operation, and under `P` the operation always fails with the fixed error `e`,
then the retry loop settles with `e`, invokes the operation `fuel + 1` times,
and its final state still satisfies `P`. -/
theorem withRetryGo_fail_inv {σ ε α : Type} (wait : ℕ → σ → σ) (op : σ → Except ε α × σ)
    (delay : ℕ) (P : σ → Prop) (e : ε)
    (hwait : ∀ ms t, P t → P (wait ms t))
    (hop : ∀ t, P t → (op t).1 = Except.error e ∧ P (op t).2) :
    ∀ (fuel attempt : ℕ) (s : σ), P s →
      (withRetryGo wait op delay attempt fuel s).1.1 = Except.error e ∧
      P (withRetryGo wait op delay attempt fuel s).1.2 ∧
      (withRetryGo wait op delay attempt fuel s).2.1 = fuel + 1 := by
  intro fuel
  induction fuel with
  | zero =>
    intro attempt s hs
    rcases hos : op s with ⟨r, t⟩
    have h := hop s hs
    rw [hos] at h
    simp only at h
    simp [withRetryGo_zero, hos, h.1, h.2]
  | succ fuel ih =>
    intro attempt s hs
    rcases hos : op s with ⟨r, t⟩
    have h := hop s hs
    rw [hos] at h
    simp only at h
    rcases h with ⟨h1, h2⟩
    subst h1
    rw [withRetryGo_succ_err wait op delay attempt fuel s t e hos]
    have hrec := ih (attempt + 1) (wait (delay * 2 ^ (attempt - 1)) t)
      (hwait (delay * 2 ^ (attempt - 1)) t h2)
    exact ⟨hrec.1, hrec.2.1, by rw [hrec.2.2]⟩

/-- Invariant-based success postcondition: if `P` is preserved by waiting and
by the operation, and under `P` every successful invocation's value satisfies
`Q`, then a successful retry-loop result satisfies `Q`. -/
theorem withRetryGo_ok_post {σ ε α : Type} (wait : ℕ → σ → σ) (op : σ → Except ε α × σ)
    (delay : ℕ) (P : σ → Prop) (Q : α → Prop)
    (hwait : ∀ ms t, P t → P (wait ms t))
    (hop : ∀ t, P t → P (op t).2 ∧ ∀ r, (op t).1 = Except.ok r → Q r) :
    ∀ (fuel attempt : ℕ) (s : σ), P s →
      ∀ r, (withRetryGo wait op delay attempt fuel s).1.1 = Except.ok r → Q r := by
  intro fuel
  induction fuel with
  | zero =>
    intro attempt s hs r hr
    rw [withRetryGo_zero] at hr
    exact (hop s hs).2 r hr
  | succ fuel ih =>
    intro attempt s hs r hr
    rcases hos : op s with ⟨res, t⟩
    cases res with
    | ok a =>
      rw [withRetryGo_succ_ok wait op delay attempt fuel s t a hos] at hr
      have ha : a = r := by simpa using hr
      subst ha
      have h2 := (hop s hs).2
      rw [hos] at h2
      exact h2 a rfl
    | error e =>
      rw [withRetryGo_succ_err wait op delay attempt fuel s t e hos] at hr
      simp only at hr
      have ht : P t := by
        have := (hop s hs).1
        rw [hos] at this
        exact this
      exact ih (attempt + 1) (wait (delay * 2 ^ (attempt - 1)) t)
        (hwait (delay * 2 ^ (attempt - 1)) t ht) r hr

/-- Time accounting: if every invocation of the operation advances the
virtual clock by exactly `L` ms, the clock at settlement reads the start
time plus `L` per invocation plus the sum of the backoff waits. -/
theorem withRetryGo_now {ε α : Type} (op : ClientState → Except ε α × ClientState)
    (delay L : ℕ) (hop : ∀ t, (op t).2.now = t.now + L) :
    ∀ (fuel attempt : ℕ) (s : ClientState),
      (withRetryGo waitState op delay attempt fuel s).1.2.now =
        s.now + L * (withRetryGo waitState op delay attempt fuel s).2.1 +
          ((withRetryGo waitState op delay attempt fuel s).2.2).sum := by
  intro fuel
  induction fuel with
  | zero =>
    intro attempt s
    have h := hop s
    simp [withRetryGo_zero, h]
  | succ fuel ih =>
    intro attempt s
    rcases hos : op s with ⟨res, t⟩
    have hnow : t.now = s.now + L := by
      have := hop s
      rw [hos] at this
      exact this
    cases res with
    | ok a =>
      rw [withRetryGo_succ_ok waitState op delay attempt fuel s t a hos]
      simp [hnow]
    | error e =>
      rw [withRetryGo_succ_err waitState op delay attempt fuel s t e hos]
      have hrec := ih (attempt + 1) (waitState (delay * 2 ^ (attempt - 1)) t)
      simp only [List.sum_cons]
      rw [hrec]
      simp [waitState, hnow]
      ring

/-! ## Claim theorems -/

/-- C1: for every operation `op`, every `maxAttempts ≥ 1` and every
`baseDelay`, if `op` throws on every invocation then
`withRetry(op, maxAttempts, baseDelay)` invokes `op` exactly `maxAttempts`
times and propagates the error of the last invocation (the invocation made
from the state reached after `maxAttempts - 1` failed attempts), and between
the `n`-th failed attempt and attempt `n + 1` it waits exactly
`baseDelay * 2 ^ (n - 1)` ms — the waits list is
`[baseDelay * 2 ^ 0, baseDelay * 2 ^ 1, …, baseDelay * 2 ^ (maxAttempts - 2)]`. -/
theorem withRetry_exhausts_attempts {σ ε α : Type} (wait : ℕ → σ → σ)
    (op : σ → Except ε α × σ) (err : σ → ε) (maxAttempts delay : ℕ) (s : σ)
    (hmax : 1 ≤ maxAttempts) (hop : ∀ t, (op t).1 = Except.error (err t)) :
    withRetry wait op maxAttempts delay s =
      ((Except.error (err (afterFails wait op delay 1 (maxAttempts - 1) s)),
        (op (afterFails wait op delay 1 (maxAttempts - 1) s)).2),
       maxAttempts,
       (List.range (maxAttempts - 1)).map (fun n => delay * 2 ^ n)) := by
  unfold withRetry
  rw [withRetryGo_allFail wait op err delay hop (maxAttempts - 1) 1 le_rfl s]
  have h1 : maxAttempts - 1 + 1 = maxAttempts := by omega
  rw [h1]
  refine congrArg _ (congrArg _ (List.map_congr_left ?_))
  intro i _
  norm_num

/-- Witness for C1: a concrete always-failing operation over state `ℕ`
(the state counts invocations; invocation from state `t` throws `t`), with
`maxAttempts = 3` and `baseDelay = 1000`: three invocations, the error of
the third (last) invocation, waits `[1000, 2000]`. -/
theorem withRetry_exhausts_attempts_witness :
    withRetry (fun _ t => t) (fun t : ℕ => ((Except.error t : Except ℕ ℕ), t + 1)) 3 1000 0 =
      ((Except.error 2, 3), 3, [1000, 2000]) := by
  have h := @withRetry_exhausts_attempts ℕ ℕ ℕ (fun _ t => t)
    (fun t => (Except.error t, t + 1)) (fun t => t) 3 1000 0 (by decide) (fun _ => rfl)
  simpa [afterFails, List.range_succ] using h

/-- A concrete execution state used by witnesses: the seed store, a random
stream that never trips a fault (every sample is 1/2), cursor and clock at
zero. -/
def demoState : ClientState :=
  { courses := initialCourses, rng := fun _ => mkRat 1 2, k := 0, now := 0 }

/-- On every state, `MockApiClient.createCourse` with a name whose trim is
shorter than 3 characters throws the validation error and leaves the store
untouched. -/
theorem createCourse_invalid_name_fails (input : CourseInput)
    (h : (jsTrim input.name).length < 3) (t : ClientState) :
    (MockApiClient.createCourse input t).1 =
      Except.error (ApiErr.validation "Course name must be at least 3 characters long") ∧
    (MockApiClient.createCourse input t).2.courses = t.courses := by
  have hcond : input.name = "" ∨ (jsTrim input.name).length < 3 := Or.inr h
  simp [MockApiClient.createCourse, simulateNetworkDelay, hcond]

/-- C2: the retry wrapper retries on any thrown error, including the
non-retryable `ValidationError`: for a public `createCourse` call with a name
whose trimmed length is below 3, every attempt of the wrapped store operation
fails with the validation error, the store operation is invoked exactly 3
times (the configured maximum, hence never more), the call ultimately fails
with that validation error, and the store is unchanged. -/
theorem createCourse_short_name_retried_then_validation (input : CourseInput)
    (s : ClientState) (h : (jsTrim input.name).length < 3) :
    (∀ t : ClientState, (MockApiClient.createCourse input t).1 =
        Except.error (ApiErr.validation "Course name must be at least 3 characters long")) ∧
    (coursesApi.createCourse input s).result =
      Except.error (ApiErr.validation "Course name must be at least 3 characters long") ∧
    (coursesApi.createCourse input s).invocations = 3 ∧
    (coursesApi.createCourse input s).state.courses = s.courses := by
  have hfail := fun t => createCourse_invalid_name_fails input h t
  have key := withRetryGo_fail_inv waitState (MockApiClient.createCourse input) 1000
    (fun t => t.courses = s.courses)
    (ApiErr.validation "Course name must be at least 3 characters long")
    (fun _ t ht => ht)
    (fun t ht => ⟨(hfail t).1, ((hfail t).2).trans ht⟩)
    2 1 s rfl
  have hw : withRetry waitState (MockApiClient.createCourse input)
      API_CONFIG.retryAttempts API_CONFIG.retryDelay s =
      withRetryGo waitState (MockApiClient.createCourse input) 1000 1 2 s := rfl
  refine ⟨fun t => (hfail t).1, ?_, ?_, ?_⟩
  · simp only [coursesApi.createCourse, hw]
    rw [key.1]
  · simp only [coursesApi.createCourse, hw]
    rw [key.2.2]
  · simp only [coursesApi.createCourse, hw]
    exact key.2.1

/-- Witness for C2: the concrete name `"ab"` (trimmed length 2) on the seed
store: three invocations and a validation-error failure. -/
theorem createCourse_short_name_witness :
    (jsTrim "ab").length < 3 ∧
    (coursesApi.createCourse { name := "ab" } demoState).result =
      Except.error (ApiErr.validation "Course name must be at least 3 characters long") ∧
    (coursesApi.createCourse { name := "ab" } demoState).invocations = 3 :=
  ⟨by decide,
   (createCourse_short_name_retried_then_validation { name := "ab" } demoState
     (by decide)).2.1,
   (createCourse_short_name_retried_then_validation { name := "ab" } demoState
     (by decide)).2.2.1⟩

/-- Every invocation of `fetchCourses` advances the virtual clock by exactly
its 800ms simulated latency (the fault draws take no virtual time). -/
theorem fetchCourses_now (t : ClientState) :
    (MockApiClient.fetchCourses t).2.now = t.now + 800 := by
  unfold MockApiClient.fetchCourses
  simp only [ClientState.draw, simulateNetworkDelay]
  split
  · rfl
  · split <;> rfl

/-- `fetchCourses` never mutates the store. -/
theorem fetchCourses_courses (t : ClientState) :
    (MockApiClient.fetchCourses t).2.courses = t.courses := by
  unfold MockApiClient.fetchCourses
  simp only [ClientState.draw, simulateNetworkDelay]
  split
  · rfl
  · split <;> rfl

/-- C3: `checkApiHealth` always resolves to a boolean (it is total with
codomain `Bool`), racing the list operation against an independent 5-second
timeout: it returns `true` exactly when the list operation succeeds and
settles before the timeout fires, and `false` whenever the timeout fires
first or the list operation fails.  The settle time of the list operation is
its start time plus 800ms of latency per attempt plus the backoff waits. -/
theorem checkApiHealth_races_list_against_timeout (s : ClientState) :
    (checkApiHealth s = true ↔
      (∃ d, (coursesApi.getCourses s).result = Except.ok d) ∧
      (coursesApi.getCourses s).state.now < s.now + 5000) ∧
    (coursesApi.getCourses s).state.now =
      s.now + 800 * (coursesApi.getCourses s).invocations +
        ((coursesApi.getCourses s).waits).sum := by
  constructor
  · unfold checkApiHealth
    by_cases hlt : (coursesApi.getCourses s).state.now < s.now + 5000
    · simp only [if_pos hlt]
      cases hres : (coursesApi.getCourses s).result with
        | ok d => simp [hres, hlt]
        | error e => simp [hres, hlt]
    · simp [if_neg hlt, hlt]
  · have hw : withRetry waitState MockApiClient.fetchCourses
        API_CONFIG.retryAttempts API_CONFIG.retryDelay s =
        withRetryGo waitState MockApiClient.fetchCourses 1000 1 2 s := rfl
    have hnow := withRetryGo_now MockApiClient.fetchCourses 1000 800 fetchCourses_now 2 1 s
    simp only [coursesApi.getCourses, hw]
    exact hnow

/-- A state whose every random sample is 0: if an operation performed the
10%-network fault injection, the draw `0 < 0.1` would force it to raise
`NetworkError 503`. -/
def zeroRngState : ClientState :=
  { courses := initialCourses, rng := fun _ => 0, k := 0, now := 0 }

/-- Counterexample to C4: on a state whose next random sample is `0 < 0.1` —
under the claimed universal fault injection every wrapped store operation
would raise `NetworkError 503` — `createCourse` succeeds and consumes no
random sample at all (the cursor `k` is unchanged), so the create operation
performs no fault injection. -/
theorem fault_injection_not_universal :
    (MockApiClient.createCourse { name := "Data Engineering" } zeroRngState).1 =
      Except.ok { data := { id := JsId.int 6, name := "Data Engineering",
                            enrollmentCount := some 0, isActive := some true },
                  success := true, message := some "Course created successfully" } ∧
    (MockApiClient.createCourse { name := "Data Engineering" } zeroRngState).2.k = 0 ∧
    zeroRngState.rng 0 < mkRat 1 10 := by
  refine ⟨rfl, rfl, by decide⟩

/-- C4 (amended): only the list operation (`fetchCourses`) performs fault
injection.  After its latency and before touching the store it draws a
sample; if it is `< 0.1` it raises `NetworkError("Service temporarily
unavailable", 503)`; otherwise it draws a second sample and if that is
`< 0.05` it raises `ValidationError("Invalid request parameters")`; otherwise
it returns the active courses.  The two faults are mutually exclusive per
call and the network fault is checked first.  The get-by-id, create, update
and delete operations draw no random samples (their cursor `k` is unchanged)
and hence perform no fault injection. -/
theorem fault_injection_only_in_fetchCourses (s : ClientState) (id : JsId)
    (input : CourseInput) (patch : CoursePatch) :
    (s.rng s.k < mkRat 1 10 →
      (MockApiClient.fetchCourses s).1 =
        Except.error (ApiErr.network "Service temporarily unavailable" 503)) ∧
    (¬ s.rng s.k < mkRat 1 10 → s.rng (s.k + 1) < mkRat 1 20 →
      (MockApiClient.fetchCourses s).1 =
        Except.error (ApiErr.validation "Invalid request parameters")) ∧
    (¬ s.rng s.k < mkRat 1 10 → ¬ s.rng (s.k + 1) < mkRat 1 20 →
      (MockApiClient.fetchCourses s).1 =
        Except.ok { data := s.courses.filter (fun c => decide (c.isActive = some true)),
                    success := true, message := some "Courses fetched successfully" }) ∧
    (MockApiClient.fetchCourseById id s).2.k = s.k ∧
    (MockApiClient.createCourse input s).2.k = s.k ∧
    (MockApiClient.updateCourse id patch s).2.k = s.k ∧
    (MockApiClient.deleteCourse id s).2.k = s.k := by
  refine ⟨?_, ?_, ?_, ?_, ?_, ?_, ?_⟩
  · intro h1
    simp [MockApiClient.fetchCourses, ClientState.draw, simulateNetworkDelay, h1]
  · intro h1 h2
    simp [MockApiClient.fetchCourses, ClientState.draw, simulateNetworkDelay, h1, h2]
  · intro h1 h2
    simp [MockApiClient.fetchCourses, ClientState.draw, simulateNetworkDelay, h1, h2]
  · simp only [MockApiClient.fetchCourseById, simulateNetworkDelay]
    split <;> rfl
  · unfold MockApiClient.createCourse
    split <;> rfl
  · simp only [MockApiClient.updateCourse, simulateNetworkDelay]
    split <;> rfl
  · simp only [MockApiClient.deleteCourse, simulateNetworkDelay]
    split <;> rfl

/-- Witness for C4 (amended) at the concrete zero-sample state: the first
sample `0 < 0.1` makes `fetchCourses` raise the 503 network fault, while
`createCourse` on the very same state leaves the sample cursor untouched. -/
theorem fault_injection_only_witness :
    (MockApiClient.fetchCourses zeroRngState).1 =
      Except.error (ApiErr.network "Service temporarily unavailable" 503) ∧
    (MockApiClient.createCourse { name := "Data Engineering" } zeroRngState).2.k = 0 :=
  ⟨(fault_injection_only_in_fetchCourses zeroRngState JsId.negInf { name := "" } {}).1
      (by decide),
   (fault_injection_only_in_fetchCourses zeroRngState JsId.negInf
      { name := "Data Engineering" } {}).2.2.2.2.1⟩

/-- Counterexample to C5: `getCourse` of an absent id fails via an underlying
`NetworkError(404)`, and the public boundary rethrows that `NetworkError`
unchanged — the caller observes the original error type, not a translated
generic error message, so translation does not happen at every public
operation. -/
theorem error_translation_counterexample :
    (coursesApi.getCourse (JsId.int 999) demoState).result =
      Except.error (ApiErr.network "Course with ID 999 not found" 404) ∧
    (coursesApi.getCourse (JsId.int 999) demoState).result ≠
      Except.error (ApiErr.generic "Failed to fetch course") := by
  have h : (coursesApi.getCourse (JsId.int 999) demoState).result =
      Except.error (ApiErr.network "Course with ID 999 not found" 404) := rfl
  refine ⟨h, ?_⟩
  rw [h]
  intro hc
  injection hc with h2
  exact absurd h2 (by decide)

/-- C5 (amended): error translation at the public boundary is only partial.
`getCourses` translates everything into a plain `Error`: an underlying
`NetworkError` becomes `"Network error: <msg> (Status: <status>)"`, a
`ValidationError` becomes `"Validation error: <msg>"`, anything else a fixed
generic message.  The other four operations translate only partially:
`getCourse`, `updateCourse` and `deleteCourse` rethrow an underlying
`NetworkError` unchanged and map everything else to a fixed generic message;
`createCourse` rethrows an underlying `ValidationError` unchanged and maps
everything else to a fixed generic message. -/
theorem error_translation_per_operation (s : ClientState) (id : JsId)
    (input : CourseInput) (patch : CoursePatch) :
    (∀ m st, (withRetry waitState MockApiClient.fetchCourses
        API_CONFIG.retryAttempts API_CONFIG.retryDelay s).1.1 =
          Except.error (ApiErr.network m st) →
      (coursesApi.getCourses s).result = Except.error (ApiErr.generic
        ("Network error: " ++ m ++ " (Status: " ++ toString st ++ ")"))) ∧
    (∀ m, (withRetry waitState MockApiClient.fetchCourses
        API_CONFIG.retryAttempts API_CONFIG.retryDelay s).1.1 =
          Except.error (ApiErr.validation m) →
      (coursesApi.getCourses s).result =
        Except.error (ApiErr.generic ("Validation error: " ++ m))) ∧
    (∀ m, (withRetry waitState MockApiClient.fetchCourses
        API_CONFIG.retryAttempts API_CONFIG.retryDelay s).1.1 =
          Except.error (ApiErr.generic m) →
      (coursesApi.getCourses s).result = Except.error
        (ApiErr.generic "An unexpected error occurred while fetching courses")) ∧
    (∀ m st, (withRetry waitState (MockApiClient.fetchCourseById id)
        API_CONFIG.retryAttempts API_CONFIG.retryDelay s).1.1 =
          Except.error (ApiErr.network m st) →
      (coursesApi.getCourse id s).result = Except.error (ApiErr.network m st)) ∧
    (∀ m, (withRetry waitState (MockApiClient.fetchCourseById id)
        API_CONFIG.retryAttempts API_CONFIG.retryDelay s).1.1 =
          Except.error (ApiErr.validation m) →
      (coursesApi.getCourse id s).result =
        Except.error (ApiErr.generic "Failed to fetch course")) ∧
    (∀ m, (withRetry waitState (MockApiClient.fetchCourseById id)
        API_CONFIG.retryAttempts API_CONFIG.retryDelay s).1.1 =
          Except.error (ApiErr.generic m) →
      (coursesApi.getCourse id s).result =
        Except.error (ApiErr.generic "Failed to fetch course")) ∧
    (∀ m, (withRetry waitState (MockApiClient.createCourse input)
        API_CONFIG.retryAttempts API_CONFIG.retryDelay s).1.1 =
          Except.error (ApiErr.validation m) →
      (coursesApi.createCourse input s).result =
        Except.error (ApiErr.validation m)) ∧
    (∀ m st, (withRetry waitState (MockApiClient.createCourse input)
        API_CONFIG.retryAttempts API_CONFIG.retryDelay s).1.1 =
          Except.error (ApiErr.network m st) →
      (coursesApi.createCourse input s).result =
        Except.error (ApiErr.generic "Failed to create course")) ∧
    (∀ m, (withRetry waitState (MockApiClient.createCourse input)
        API_CONFIG.retryAttempts API_CONFIG.retryDelay s).1.1 =
          Except.error (ApiErr.generic m) →
      (coursesApi.createCourse input s).result =
        Except.error (ApiErr.generic "Failed to create course")) ∧
    (∀ m st, (withRetry waitState (MockApiClient.updateCourse id patch)
        API_CONFIG.retryAttempts API_CONFIG.retryDelay s).1.1 =
          Except.error (ApiErr.network m st) →
      (coursesApi.updateCourse id patch s).result = Except.error (ApiErr.network m st)) ∧
    (∀ m, (withRetry waitState (MockApiClient.updateCourse id patch)
        API_CONFIG.retryAttempts API_CONFIG.retryDelay s).1.1 =
          Except.error (ApiErr.validation m) →
      (coursesApi.updateCourse id patch s).result =
        Except.error (ApiErr.generic "Failed to update course")) ∧
    (∀ m, (withRetry waitState (MockApiClient.updateCourse id patch)
        API_CONFIG.retryAttempts API_CONFIG.retryDelay s).1.1 =
          Except.error (ApiErr.generic m) →
      (coursesApi.updateCourse id patch s).result =
        Except.error (ApiErr.generic "Failed to update course")) ∧
    (∀ m st, (withRetry waitState (MockApiClient.deleteCourse id)
        API_CONFIG.retryAttempts API_CONFIG.retryDelay s).1.1 =
          Except.error (ApiErr.network m st) →
      (coursesApi.deleteCourse id s).result = Except.error (ApiErr.network m st)) ∧
    (∀ m, (withRetry waitState (MockApiClient.deleteCourse id)
        API_CONFIG.retryAttempts API_CONFIG.retryDelay s).1.1 =
          Except.error (ApiErr.validation m) →
      (coursesApi.deleteCourse id s).result =
        Except.error (ApiErr.generic "Failed to delete course")) ∧
    (∀ m, (withRetry waitState (MockApiClient.deleteCourse id)
        API_CONFIG.retryAttempts API_CONFIG.retryDelay s).1.1 =
          Except.error (ApiErr.generic m) →
      (coursesApi.deleteCourse id s).result =
        Except.error (ApiErr.generic "Failed to delete course")) := by
  refine ⟨?_, ?_, ?_, ?_, ?_, ?_, ?_, ?_, ?_, ?_, ?_, ?_, ?_, ?_, ?_⟩
  · intro m st h
    simp only [coursesApi.getCourses]
    rw [h]
  · intro m h
    simp only [coursesApi.getCourses]
    rw [h]
  · intro m h
    simp only [coursesApi.getCourses]
    rw [h]
  · intro m st h
    simp only [coursesApi.getCourse]
    rw [h]
  · intro m h
    simp only [coursesApi.getCourse]
    rw [h]
  · intro m h
    simp only [coursesApi.getCourse]
    rw [h]
  · intro m h
    simp only [coursesApi.createCourse]
    rw [h]
  · intro m st h
    simp only [coursesApi.createCourse]
    rw [h]
  · intro m h
    simp only [coursesApi.createCourse]
    rw [h]
  · intro m st h
    simp only [coursesApi.updateCourse]
    rw [h]
  · intro m h
    simp only [coursesApi.updateCourse]
    rw [h]
  · intro m h
    simp only [coursesApi.updateCourse]
    rw [h]
  · intro m st h
    simp only [coursesApi.deleteCourse]
    rw [h]
  · intro m h
    simp only [coursesApi.deleteCourse]
    rw [h]
  · intro m h
    simp only [coursesApi.deleteCourse]
    rw [h]

/-- Witness for C5 (amended): on the zero-sample state every `fetchCourses`
attempt raises the 503 network fault, and the public `getCourses` reports
the fully translated generic message including the status code. -/
theorem error_translation_per_operation_witness :
    (coursesApi.getCourses zeroRngState).result =
      Except.error (ApiErr.generic "Network error: Service temporarily unavailable (Status: 503)") :=
  (error_translation_per_operation zeroRngState JsId.negInf { name := "" } {}).1
    "Service temporarily unavailable" 503 (by rfl)

/-! ## Lemmas about id assignment -/

theorem JsId.max_negInf_right (x : JsId) : JsId.max x JsId.negInf = x := by
  cases x <;> rfl

theorem JsId.max_assoc (x y z : JsId) :
    JsId.max (JsId.max x y) z = JsId.max x (JsId.max y z) := by
  cases x <;> cases y <;> cases z <;> simp [JsId.max, max_assoc, sup_assoc]

theorem foldr_max_init (l : List JsId) (x : JsId) :
    l.foldr JsId.max x = JsId.max (l.foldr JsId.max JsId.negInf) x := by
  induction l with
  | nil => simp [List.foldr_nil, JsId.max]
  | cons a l ih => simp [List.foldr_cons, ih, JsId.max_assoc]

theorem maxId_append_singleton (l : List Course) (c : Course) :
    maxId (l ++ [c]) = JsId.max (maxId l) c.id := by
  unfold maxId
  rw [List.map_append, List.foldr_append]
  simp only [List.map_cons, List.map_nil, List.foldr_cons, List.foldr_nil,
    JsId.max_negInf_right]
  exact foldr_max_init _ _

/-- Full characterization of a successful `createCourse`: the valid-name
branch builds the record with id `max(ids) + 1`, forces
`enrollmentCount = 0` and `isActive = true`, pushes it, and returns it. -/
theorem createCourse_ok (input : CourseInput) (t : ClientState)
    (hn : ¬(input.name = "" ∨ (jsTrim input.name).length < 3)) :
    MockApiClient.createCourse input t =
      (Except.ok { data := { id := (maxId t.courses).addOne, name := input.name,
                             description := input.description, duration := input.duration,
                             instructor := input.instructor,
                             enrollmentCount := some 0, isActive := some true },
                   success := true, message := some "Course created successfully" },
       { courses := t.courses ++ [{ id := (maxId t.courses).addOne, name := input.name,
                                    description := input.description, duration := input.duration,
                                    instructor := input.instructor,
                                    enrollmentCount := some 0, isActive := some true }],
         rng := t.rng, k := t.k, now := t.now + 1200 }) := by
  simp [MockApiClient.createCourse, simulateNetworkDelay, hn]

/-- An execution state with an empty store. -/
def emptyStoreState : ClientState :=
  { courses := [], rng := fun _ => mkRat 1 2, k := 0, now := 0 }

/-- Counterexample to C6: on the empty store a successful create assigns the
id `-Infinity` (`Math.max()` of no arguments is `-Infinity` and `-Infinity +
1` stays `-Infinity`), not 1; and a second successful create assigns
`-Infinity` again, so the two ids are neither distinct nor increasing. -/
theorem create_on_empty_store_not_id_one :
    (MockApiClient.createCourse { name := "Data Engineering" } emptyStoreState).1 =
      Except.ok { data := { id := JsId.negInf, name := "Data Engineering",
                            enrollmentCount := some 0, isActive := some true },
                  success := true, message := some "Course created successfully" } ∧
    JsId.negInf ≠ JsId.int 1 ∧
    (MockApiClient.createCourse { name := "Data Engineering" }
        (MockApiClient.createCourse { name := "Data Engineering" } emptyStoreState).2).1 =
      Except.ok { data := { id := JsId.negInf, name := "Data Engineering",
                            enrollmentCount := some 0, isActive := some true },
                  success := true, message := some "Course created successfully" } := by
  refine ⟨rfl, by decide, rfl⟩

/-- C6 (amended): a successful create assigns the identifier
`max(existing ids) + 1`, where the maximum of an empty id list is
`-Infinity`, so on an empty store the assigned identifier is `-Infinity`
(not 1).  When the current maximum id is a finite integer `m`, create
assigns `m + 1`, sets `enrollmentCount = 0` and `isActive = true`, appends
the record and returns it, and a second successful create assigns `m + 2`:
the two ids are distinct and strictly increasing. -/
theorem create_assigns_monotonic_ids (s : ClientState) (input input2 : CourseInput) (m : ℤ)
    (hn1 : ¬(input.name = "" ∨ (jsTrim input.name).length < 3))
    (hn2 : ¬(input2.name = "" ∨ (jsTrim input2.name).length < 3))
    (hm : maxId s.courses = JsId.int m) :
    (MockApiClient.createCourse input s).1 =
      Except.ok { data := { id := JsId.int (m + 1), name := input.name,
                            description := input.description, duration := input.duration,
                            instructor := input.instructor,
                            enrollmentCount := some 0, isActive := some true },
                  success := true, message := some "Course created successfully" } ∧
    (MockApiClient.createCourse input s).2.courses =
      s.courses ++ [{ id := JsId.int (m + 1), name := input.name,
                      description := input.description, duration := input.duration,
                      instructor := input.instructor,
                      enrollmentCount := some 0, isActive := some true }] ∧
    (MockApiClient.createCourse input2 (MockApiClient.createCourse input s).2).1 =
      Except.ok { data := { id := JsId.int (m + 2), name := input2.name,
                            description := input2.description, duration := input2.duration,
                            instructor := input2.instructor,
                            enrollmentCount := some 0, isActive := some true },
                  success := true, message := some "Course created successfully" } ∧
    JsId.int (m + 1) ≠ JsId.int (m + 2) ∧
    JsId.lt (JsId.int (m + 1)) (JsId.int (m + 2)) = true ∧
    (∀ t : ClientState, t.courses = [] →
      (MockApiClient.createCourse input t).1 =
        Except.ok { data := { id := JsId.negInf, name := input.name,
                              description := input.description, duration := input.duration,
                              instructor := input.instructor,
                              enrollmentCount := some 0, isActive := some true },
                    success := true, message := some "Course created successfully" }) := by
  have h1 := createCourse_ok input s hn1
  have hid1 : (maxId s.courses).addOne = JsId.int (m + 1) := by
    rw [hm]; rfl
  have hfst : (MockApiClient.createCourse input s).1 =
      Except.ok { data := { id := JsId.int (m + 1), name := input.name,
                            description := input.description, duration := input.duration,
                            instructor := input.instructor,
                            enrollmentCount := some 0, isActive := some true },
                  success := true, message := some "Course created successfully" } := by
    rw [h1]
    rw [hid1]
  have hcrs : (MockApiClient.createCourse input s).2.courses =
      s.courses ++ [{ id := JsId.int (m + 1), name := input.name,
                      description := input.description, duration := input.duration,
                      instructor := input.instructor,
                      enrollmentCount := some 0, isActive := some true }] := by
    rw [h1]
    simp only [hid1]
  have hm2 : maxId (MockApiClient.createCourse input s).2.courses = JsId.int (m + 1) := by
    rw [hcrs, maxId_append_singleton, hm]
    simp only [JsId.max]
    have : Max.max m (m + 1) = m + 1 := max_eq_right (by omega)
    rw [this]
  have h2 := createCourse_ok input2 (MockApiClient.createCourse input s).2 hn2
  have hid2 : (maxId (MockApiClient.createCourse input s).2.courses).addOne =
      JsId.int (m + 2) := by
    rw [hm2]
    show JsId.int (m + 1 + 1) = JsId.int (m + 2)
    rw [add_assoc]
    norm_num
  have hsnd : (MockApiClient.createCourse input2 (MockApiClient.createCourse input s).2).1 =
      Except.ok { data := { id := JsId.int (m + 2), name := input2.name,
                            description := input2.description, duration := input2.duration,
                            instructor := input2.instructor,
                            enrollmentCount := some 0, isActive := some true },
                  success := true, message := some "Course created successfully" } := by
    rw [h2, hid2]
  refine ⟨hfst, hcrs, hsnd, by simp, by simp [JsId.lt], ?_⟩
  intro t ht
  have h3 := createCourse_ok input t hn1
  rw [h3]
  have : maxId t.courses = JsId.negInf := by rw [ht]; rfl
  rw [this]
  rfl

/-- Witness for C6 (amended): on the seed store (maximum id 5) creating
"Data Engineering" then "ML Systems" yields ids 6 and 7, distinct and
increasing. -/
theorem create_assigns_monotonic_ids_witness :
    maxId demoState.courses = JsId.int 5 ∧
    (MockApiClient.createCourse { name := "Data Engineering" } demoState).1 =
      Except.ok { data := { id := JsId.int 6, name := "Data Engineering",
                            enrollmentCount := some 0, isActive := some true },
                  success := true, message := some "Course created successfully" } ∧
    (MockApiClient.createCourse { name := "ML Systems" }
        (MockApiClient.createCourse { name := "Data Engineering" } demoState).2).1 =
      Except.ok { data := { id := JsId.int 7, name := "ML Systems",
                            enrollmentCount := some 0, isActive := some true },
                  success := true, message := some "Course created successfully" } := by
  have h := create_assigns_monotonic_ids demoState { name := "Data Engineering" }
    { name := "ML Systems" } 5 (by decide) (by decide) (by decide)
  exact ⟨by decide, h.1, h.2.2.1⟩

/-- A successful `fetchCourses` returns exactly the active filter of the
store it ran against. -/
theorem fetchCourses_ok_data (t : ClientState) (r : ApiResponse (List Course))
    (h : (MockApiClient.fetchCourses t).1 = Except.ok r) :
    r.data = t.courses.filter (fun c => decide (c.isActive = some true)) := by
  unfold MockApiClient.fetchCourses at h
  simp only [ClientState.draw, simulateNetworkDelay] at h
  split at h
  · simp at h
  · split at h
    · simp at h
    · have hr : r = { data := t.courses.filter (fun c => decide (c.isActive = some true)),
                      success := true,
                      message := some "Courses fetched successfully" } := by
        injection h with h1
        exact h1.symm
      rw [hr]

/-- Every successful public `getCourses` result is the active filter of the
starting store (the list path never mutates the store). -/
theorem getCourses_ok_data (s : ClientState) (d : List Course)
    (h : (coursesApi.getCourses s).result = Except.ok d) :
    d = s.courses.filter (fun c => decide (c.isActive = some true)) := by
  have hw : withRetry waitState MockApiClient.fetchCourses
      API_CONFIG.retryAttempts API_CONFIG.retryDelay s =
      withRetryGo waitState MockApiClient.fetchCourses 1000 1 2 s := rfl
  have hpost := withRetryGo_ok_post waitState MockApiClient.fetchCourses 1000
    (fun t => t.courses = s.courses)
    (fun r => r.data = s.courses.filter (fun c => decide (c.isActive = some true)))
    (fun _ _ ht => ht)
    (fun t ht => ⟨(fetchCourses_courses t).trans ht,
      fun r hr => (fetchCourses_ok_data t r hr).trans (by rw [ht])⟩)
    2 1 s rfl
  simp only [coursesApi.getCourses, hw] at h
  cases hu : (withRetryGo waitState MockApiClient.fetchCourses 1000 1 2 s).1.1 with
  | ok resp =>
    rw [hu] at h
    have hd : resp.data = d := by injection h with h1
    exact hd ▸ (hpost resp hu)
  | error e =>
    rw [hu] at h
    cases e <;> simp at h

/-- C7: every successful `getCourses` call returns exactly the records with
`isActive = true`, in insertion order (the result is the `filter` of the
store, hence a sublist of it); no record with `isActive` absent or `false`
ever appears in the result. -/
theorem getCourses_returns_active_filter (s : ClientState) (d : List Course)
    (h : (coursesApi.getCourses s).result = Except.ok d) :
    d = s.courses.filter (fun c => decide (c.isActive = some true)) ∧
    d.Sublist s.courses ∧
    (∀ c ∈ d, c.isActive = some true) := by
  have hq := getCourses_ok_data s d h
  refine ⟨hq, ?_, ?_⟩
  · rw [hq]
    exact List.filter_sublist s.courses
  · intro c hc
    rw [hq] at hc
    have := List.of_mem_filter hc
    simpa using this

/-- Witness for C7 at the fault-free state: `getCourses` succeeds and the
seed store (all records active) comes back exactly as its active filter. -/
theorem getCourses_returns_active_filter_witness :
    (coursesApi.getCourses demoState).result = Except.ok initialCourses ∧
    initialCourses = demoState.courses.filter (fun c => decide (c.isActive = some true)) := by
  have h : (coursesApi.getCourses demoState).result = Except.ok initialCourses := by rfl
  exact ⟨h, (getCourses_returns_active_filter demoState initialCourses h).1⟩

/-! ## Lemmas about findIndex and list updates -/

theorem findIndex_eq_none_iff {α : Type} (p : α → Bool) (l : List α) :
    findIndex p l = none ↔ ∀ x ∈ l, p x = false := by
  induction l with
  | nil => simp [findIndex]
  | cons a l ih =>
    by_cases hp : p a
    · simp [findIndex, hp]
    · simp [findIndex, hp, ih]

theorem findIndex_some_spec {α : Type} (p : α → Bool) :
    ∀ (l : List α) (i : ℕ), findIndex p l = some i →
      ∃ x, l.get? i = some x ∧ p x = true := by
  intro l
  induction l with
  | nil => intro i h; simp [findIndex] at h
  | cons a l ih =>
    intro i h
    by_cases hp : p a
    · simp only [findIndex, if_pos hp, Option.some.injEq] at h
      subst h
      exact ⟨a, rfl, hp⟩
    · simp only [findIndex, if_neg hp, Option.map_eq_some'] at h
      obtain ⟨j, hj, rfl⟩ := h
      obtain ⟨x, hx, hpx⟩ := ih j hj
      exact ⟨x, hx, hpx⟩

theorem get?_set_ne {α : Type} (a : α) :
    ∀ (l : List α) (i j : ℕ), i ≠ j → (l.set i a).get? j = l.get? j := by
  intro l
  induction l with
  | nil => intro i j _; simp
  | cons x l ih =>
    intro i j hij
    cases i with
    | zero =>
      cases j with
      | zero => exact absurd rfl hij
      | succ j => simp [List.set]
    | succ i =>
      cases j with
      | zero => simp [List.set]
      | succ j => simpa [List.set] using ih i j (by omega)

theorem get?_set_self {α : Type} (a : α) :
    ∀ (l : List α) (i : ℕ), i < l.length → (l.set i a).get? i = some a := by
  intro l
  induction l with
  | nil => intro i h; simp at h
  | cons x l ih =>
    intro i h
    cases i with
    | zero => rfl
    | succ i => simpa [List.set] using ih i (by simpa using h)

theorem getD_eq_of_get? {α : Type} (l : List α) (i : ℕ) (x d : α)
    (h : l.get? i = some x) : l.getD i d = x := by
  rw [List.get?_eq_getElem?] at h
  simp [List.getD, h]

/-- If some element satisfies the predicate, `findIndex` returns an index. -/
theorem findIndex_isSome_of_mem {α : Type} (p : α → Bool) (l : List α) (x : α)
    (hx : x ∈ l) (hp : p x = true) : ∃ i, findIndex p l = some i := by
  cases h : findIndex p l with
  | none =>
    have := (findIndex_eq_none_iff p l).mp h x hx
    rw [hp] at this
    cases this
  | some i => exact ⟨i, rfl⟩

/-- `deleteCourse` on an id absent from the store: 404 error, store
untouched. -/
theorem deleteCourse_absent (id : JsId) (t : ClientState)
    (h : ∀ c ∈ t.courses, c.id ≠ id) :
    (MockApiClient.deleteCourse id t).1 =
      Except.error (ApiErr.network ("Course with ID " ++ idStr id ++ " not found") 404) ∧
    (MockApiClient.deleteCourse id t).2.courses = t.courses := by
  have hf : findIndex (fun c => decide (c.id = id)) t.courses = none :=
    (findIndex_eq_none_iff _ _).mpr (fun c hc => by simpa using h c hc)
  simp [MockApiClient.deleteCourse, simulateNetworkDelay, hf]

/-- `deleteCourse` on a present id: returns `true` and flips `isActive` of
the record at the found index in place. -/
theorem deleteCourse_present (id : JsId) (t : ClientState) (i : ℕ)
    (h : findIndex (fun c => decide (c.id = id)) t.courses = some i) :
    MockApiClient.deleteCourse id t =
      (Except.ok { data := true, success := true,
                   message := some "Course deleted successfully" },
       { courses := t.courses.set i
           { t.courses.getD i dummyCourse with isActive := some false },
         rng := t.rng, k := t.k, now := t.now + 600 }) := by
  simp [MockApiClient.deleteCourse, simulateNetworkDelay, h]

/-- `fetchCourseById` when no active record carries the id: 404, store
untouched. -/
theorem fetchCourseById_notfound (id : JsId) (t : ClientState)
    (h : t.courses.find?
      (fun c => decide (c.id = id) && decide (c.isActive = some true)) = none) :
    (MockApiClient.fetchCourseById id t).1 =
      Except.error (ApiErr.network ("Course with ID " ++ idStr id ++ " not found") 404) ∧
    (MockApiClient.fetchCourseById id t).2.courses = t.courses := by
  simp [MockApiClient.fetchCourseById, simulateNetworkDelay, h]

/-- C8: for every id present in the store (with the data-model invariant
that ids are unique), a successful delete returns `true` after exactly one
invocation and sets that record's `isActive` to `false` in place — the
record is retained, the store's length is unchanged; delete fails with the
404 not-found error if no record has the id; and after a successful delete,
a successful `getCourses` excludes the deleted id and `getCourse(id)` fails
with the 404 not-found error, because the active-only read path fails on the
now-inactive record. -/
theorem deleteCourse_soft_delete (s : ClientState) (id : JsId)
    (hnd : (s.courses.map (fun c => c.id)).Nodup) :
    ((∃ c ∈ s.courses, c.id = id) →
      ∃ i, findIndex (fun c => decide (c.id = id)) s.courses = some i) ∧
    ((∀ c ∈ s.courses, c.id ≠ id) →
      (coursesApi.deleteCourse id s).result =
        Except.error (ApiErr.network ("Course with ID " ++ idStr id ++ " not found") 404) ∧
      (coursesApi.deleteCourse id s).state.courses = s.courses) ∧
    (∀ i old, findIndex (fun c => decide (c.id = id)) s.courses = some i →
      s.courses.get? i = some old →
      old.id = id ∧
      (coursesApi.deleteCourse id s).result = Except.ok true ∧
      (coursesApi.deleteCourse id s).invocations = 1 ∧
      (coursesApi.deleteCourse id s).state.courses =
        s.courses.set i { old with isActive := some false } ∧
      (coursesApi.deleteCourse id s).state.courses.length = s.courses.length ∧
      (coursesApi.deleteCourse id s).state.courses.get? i =
        some { old with isActive := some false } ∧
      (∀ d, (coursesApi.getCourses (coursesApi.deleteCourse id s).state).result =
          Except.ok d → ∀ c ∈ d, c.id ≠ id) ∧
      (coursesApi.getCourse id (coursesApi.deleteCourse id s).state).result =
        Except.error (ApiErr.network ("Course with ID " ++ idStr id ++ " not found") 404)) := by
  have hw : withRetry waitState (MockApiClient.deleteCourse id)
      API_CONFIG.retryAttempts API_CONFIG.retryDelay s =
      withRetryGo waitState (MockApiClient.deleteCourse id) 1000 1 2 s := rfl
  refine ⟨?_, ?_, ?_⟩
  · rintro ⟨c, hc, hcid⟩
    exact findIndex_isSome_of_mem _ _ c hc (by simpa using hcid)
  · intro hab
    have key := withRetryGo_fail_inv waitState (MockApiClient.deleteCourse id) 1000
      (fun t => t.courses = s.courses)
      (ApiErr.network ("Course with ID " ++ idStr id ++ " not found") 404)
      (fun _ _ ht => ht)
      (fun t ht => by
        have hd := deleteCourse_absent id t (by rw [ht]; exact hab)
        exact ⟨hd.1, hd.2.trans ht⟩)
      2 1 s rfl
    constructor
    · simp only [coursesApi.deleteCourse, hw]
      rw [key.1]
    · simp only [coursesApi.deleteCourse, hw]
      exact key.2.1
  · intro i old hfi hold
    obtain ⟨hin, -⟩ := List.get?_eq_some.mp hold
    obtain ⟨x, hx, hpx⟩ := findIndex_some_spec _ _ _ hfi
    have hxold : x = old := by
      rw [hold] at hx
      injection hx with h1
      exact h1.symm
    have holdid : old.id = id := by
      rw [hxold] at hpx
      simpa using hpx
    have hdel := deleteCourse_present id s i hfi
    rw [getD_eq_of_get? s.courses i old dummyCourse hold] at hdel
    have hfirst := withRetryGo_first_ok waitState (MockApiClient.deleteCourse id) 1000 1 2 s
      { courses := s.courses.set i { old with isActive := some false },
        rng := s.rng, k := s.k, now := s.now + 600 }
      { data := true, success := true, message := some "Course deleted successfully" }
      hdel
    have hres : (coursesApi.deleteCourse id s).result = Except.ok true := by
      simp only [coursesApi.deleteCourse, hw]
      rw [hfirst]
    have hstate : (coursesApi.deleteCourse id s).state =
        { courses := s.courses.set i { old with isActive := some false },
          rng := s.rng, k := s.k, now := s.now + 600 } := by
      simp only [coursesApi.deleteCourse, hw]
      rw [hfirst]
    have hinv : (coursesApi.deleteCourse id s).invocations = 1 := by
      simp only [coursesApi.deleteCourse, hw]
      rw [hfirst]
    have hcourses2 : (coursesApi.deleteCourse id s).state.courses =
        s.courses.set i { old with isActive := some false } := by
      rw [hstate]
    have hmaster : ∀ x, x ∈ s.courses.set i { old with isActive := some false } →
        x.id = id → x = { old with isActive := some false } := by
      intro y hy hyid
      rw [List.mem_iff_get?] at hy
      obtain ⟨j, hj⟩ := hy
      by_cases hij : i = j
      · subst hij
        rw [get?_set_self _ _ _ hin] at hj
        injection hj with h1
        exact h1.symm
      · rw [get?_set_ne _ _ _ _ hij] at hj
        exfalso
        have hidi : (s.courses.map (fun c => c.id)).get? i = some id := by
          rw [List.get?_map, hold]
          simp [holdid]
        have hidj : (s.courses.map (fun c => c.id)).get? j = some id := by
          rw [List.get?_map, hj]
          simp [hyid]
        exact hij (List.get?_inj (by simpa using hin) hnd (hidi.trans hidj.symm))
    refine ⟨holdid, hres, hinv, hcourses2, by rw [hcourses2]; exact List.length_set _ _ _, ?_, ?_, ?_⟩
    · rw [hcourses2]
      exact get?_set_self _ _ _ hin
    · intro d hd c hc
      intro hcid
      have hdata := getCourses_ok_data (coursesApi.deleteCourse id s).state d hd
      rw [hdata, hcourses2] at hc
      have hca : c.isActive = some true := by
        have := List.of_mem_filter hc
        simpa using this
      have hcmem : c ∈ s.courses.set i { old with isActive := some false } :=
        List.mem_of_mem_filter hc
      have := hmaster c hcmem hcid
      rw [this] at hca
      simp at hca
    · have hfind : ((coursesApi.deleteCourse id s).state.courses).find?
          (fun c => decide (c.id = id) && decide (c.isActive = some true)) = none := by
        rw [hcourses2]
        apply List.find?_eq_none.mpr
        intro y hy hpy
        have h1 : y.id = id := by
          have := (Bool.and_eq_true _ _).mp hpy
          simpa using this.1
        have h2 : y.isActive = some true := by
          have := (Bool.and_eq_true _ _).mp hpy
          simpa using this.2
        have := hmaster y hy h1
        rw [this] at h2
        simp at h2
      have key2 := withRetryGo_fail_inv waitState (MockApiClient.fetchCourseById id) 1000
        (fun t => t.courses = (coursesApi.deleteCourse id s).state.courses)
        (ApiErr.network ("Course with ID " ++ idStr id ++ " not found") 404)
        (fun _ _ ht => ht)
        (fun t ht => by
          have hnf := fetchCourseById_notfound id t (by rw [ht]; exact hfind)
          exact ⟨hnf.1, hnf.2.trans ht⟩)
        2 1 (coursesApi.deleteCourse id s).state rfl
      have hw2 : withRetry waitState (MockApiClient.fetchCourseById id)
          API_CONFIG.retryAttempts API_CONFIG.retryDelay (coursesApi.deleteCourse id s).state =
          withRetryGo waitState (MockApiClient.fetchCourseById id) 1000 1 2
            (coursesApi.deleteCourse id s).state := rfl
      simp only [coursesApi.getCourse, hw2]
      rw [key2.1]

/-- Witness for C8: deleting id 3 from the seed store returns `true`, and a
subsequent `getCourse(3)` fails with the 404 not-found error. -/
theorem deleteCourse_soft_delete_witness :
    (coursesApi.deleteCourse (JsId.int 3) demoState).result = Except.ok true ∧
    (coursesApi.getCourse (JsId.int 3)
        (coursesApi.deleteCourse (JsId.int 3) demoState).state).result =
      Except.error (ApiErr.network "Course with ID 3 not found" 404) := by
  have h := deleteCourse_soft_delete demoState (JsId.int 3) (by decide)
  have h3 := h.2.2 2
    { id := JsId.int 3, name := "JavaScript Pro",
      description := some "Advanced JavaScript concepts and ES6+ features",
      duration := some "8 weeks", instructor := some "Alex Rodriguez",
      enrollmentCount := some 189, isActive := some true }
    (by rfl) (by rfl)
  exact ⟨h3.2.1, h3.2.2.2.2.2.2.2⟩

/-- `updateCourse` on an absent id: 404, store untouched. -/
theorem updateCourse_absent (id : JsId) (patch : CoursePatch) (t : ClientState)
    (h : ∀ c ∈ t.courses, c.id ≠ id) :
    (MockApiClient.updateCourse id patch t).1 =
      Except.error (ApiErr.network ("Course with ID " ++ idStr id ++ " not found") 404) ∧
    (MockApiClient.updateCourse id patch t).2.courses = t.courses := by
  have hf : findIndex (fun c => decide (c.id = id)) t.courses = none :=
    (findIndex_eq_none_iff _ _).mpr (fun c hc => by simpa using h c hc)
  simp [MockApiClient.updateCourse, simulateNetworkDelay, hf]

/-- `updateCourse` on a present id: replaces the record at the found index
by the spread merge and returns the merged record. -/
theorem updateCourse_present (id : JsId) (patch : CoursePatch) (t : ClientState) (i : ℕ)
    (h : findIndex (fun c => decide (c.id = id)) t.courses = some i) :
    MockApiClient.updateCourse id patch t =
      (Except.ok { data := Course.mergePatch (t.courses.getD i dummyCourse) patch,
                   success := true, message := some "Course updated successfully" },
       { courses := t.courses.set i (Course.mergePatch (t.courses.getD i dummyCourse) patch),
         rng := t.rng, k := t.k, now := t.now + 900 }) := by
  simp [MockApiClient.updateCourse, simulateNetworkDelay, h]

/-- C9: `updateCourse` fails with the 404 not-found error when no record has
the id (leaving the store unchanged); otherwise it shallow-merges the
supplied fields into the record at the found index and returns the merged
record, and only that record changes — every other position of the store is
unchanged, and every field not supplied in the patch keeps its previous
value. -/
theorem updateCourse_merge_frame (s : ClientState) (id : JsId) (patch : CoursePatch) :
    ((∀ c ∈ s.courses, c.id ≠ id) →
      (coursesApi.updateCourse id patch s).result =
        Except.error (ApiErr.network ("Course with ID " ++ idStr id ++ " not found") 404) ∧
      (coursesApi.updateCourse id patch s).state.courses = s.courses) ∧
    (∀ i old, findIndex (fun c => decide (c.id = id)) s.courses = some i →
      s.courses.get? i = some old →
      (coursesApi.updateCourse id patch s).result =
        Except.ok (Course.mergePatch old patch) ∧
      (coursesApi.updateCourse id patch s).state.courses =
        s.courses.set i (Course.mergePatch old patch) ∧
      (coursesApi.updateCourse id patch s).state.courses.get? i =
        some (Course.mergePatch old patch) ∧
      (∀ j, j ≠ i → (coursesApi.updateCourse id patch s).state.courses.get? j =
        s.courses.get? j) ∧
      (patch.id = none → (Course.mergePatch old patch).id = old.id) ∧
      (patch.name = none → (Course.mergePatch old patch).name = old.name) ∧
      (patch.description = none →
        (Course.mergePatch old patch).description = old.description) ∧
      (patch.duration = none → (Course.mergePatch old patch).duration = old.duration) ∧
      (patch.instructor = none →
        (Course.mergePatch old patch).instructor = old.instructor) ∧
      (patch.enrollmentCount = none →
        (Course.mergePatch old patch).enrollmentCount = old.enrollmentCount) ∧
      (patch.isActive = none → (Course.mergePatch old patch).isActive = old.isActive)) := by
  have hw : withRetry waitState (MockApiClient.updateCourse id patch)
      API_CONFIG.retryAttempts API_CONFIG.retryDelay s =
      withRetryGo waitState (MockApiClient.updateCourse id patch) 1000 1 2 s := rfl
  constructor
  · intro hab
    have key := withRetryGo_fail_inv waitState (MockApiClient.updateCourse id patch) 1000
      (fun t => t.courses = s.courses)
      (ApiErr.network ("Course with ID " ++ idStr id ++ " not found") 404)
      (fun _ _ ht => ht)
      (fun t ht => by
        have hu := updateCourse_absent id patch t (by rw [ht]; exact hab)
        exact ⟨hu.1, hu.2.trans ht⟩)
      2 1 s rfl
    constructor
    · simp only [coursesApi.updateCourse, hw]
      rw [key.1]
    · simp only [coursesApi.updateCourse, hw]
      exact key.2.1
  · intro i old hfi hold
    obtain ⟨hin, -⟩ := List.get?_eq_some.mp hold
    have hupd := updateCourse_present id patch s i hfi
    rw [getD_eq_of_get? s.courses i old dummyCourse hold] at hupd
    have hfirst := withRetryGo_first_ok waitState (MockApiClient.updateCourse id patch)
      1000 1 2 s
      { courses := s.courses.set i (Course.mergePatch old patch),
        rng := s.rng, k := s.k, now := s.now + 900 }
      { data := Course.mergePatch old patch, success := true,
        message := some "Course updated successfully" }
      hupd
    have hres : (coursesApi.updateCourse id patch s).result =
        Except.ok (Course.mergePatch old patch) := by
      simp only [coursesApi.updateCourse, hw]
      rw [hfirst]
    have hstate : (coursesApi.updateCourse id patch s).state =
        { courses := s.courses.set i (Course.mergePatch old patch),
          rng := s.rng, k := s.k, now := s.now + 900 } := by
      simp only [coursesApi.updateCourse, hw]
      rw [hfirst]
    have hcourses2 : (coursesApi.updateCourse id patch s).state.courses =
        s.courses.set i (Course.mergePatch old patch) := by rw [hstate]
    refine ⟨hres, hcourses2, ?_, ?_, ?_, ?_, ?_, ?_, ?_, ?_, ?_⟩
    · rw [hcourses2]
      exact get?_set_self _ _ _ hin
    · intro j hj
      rw [hcourses2]
      exact get?_set_ne _ _ _ _ (fun he => hj he.symm)
    · intro hnone
      simp [Course.mergePatch, hnone]
    · intro hnone
      simp [Course.mergePatch, hnone]
    · intro hnone
      simp [Course.mergePatch, hnone]
    · intro hnone
      simp [Course.mergePatch, hnone]
    · intro hnone
      simp [Course.mergePatch, hnone]
    · intro hnone
      simp [Course.mergePatch, hnone]
    · intro hnone
      simp [Course.mergePatch, hnone]

/-- Witness for C9: renaming course 2 of the seed store merges only the
name; the record at position 0 is untouched. -/
theorem updateCourse_merge_frame_witness :
    (coursesApi.updateCourse (JsId.int 2) { name := some "CSS Expert" } demoState).result =
      Except.ok { id := JsId.int 2, name := "CSS Expert",
                  description := some "Master CSS styling and responsive design",
                  duration := some "6 weeks", instructor := some "Mike Chen",
                  enrollmentCount := some 203, isActive := some true } ∧
    (coursesApi.updateCourse (JsId.int 2) { name := some "CSS Expert" }
        demoState).state.courses.get? 0 = demoState.courses.get? 0 := by
  have h := (updateCourse_merge_frame demoState (JsId.int 2)
    { name := some "CSS Expert" }).2 1
    { id := JsId.int 2, name := "CSS Mastery",
      description := some "Master CSS styling and responsive design",
      duration := some "6 weeks", instructor := some "Mike Chen",
      enrollmentCount := some 203, isActive := some true }
    (by rfl) (by rfl)
  exact ⟨h.1, h.2.2.2.1 0 (by decide)⟩

/-- C10: for every input with a valid name — even one supplying its own
`enrollmentCount` or `isActive` — the created record (both the one returned
and the one appended to the store) has `enrollmentCount = 0` and
`isActive = true`: the create operation unconditionally overwrites the
caller-supplied values rather than merely defaulting absent ones. -/
theorem createCourse_forces_enrollment_and_active (input : CourseInput) (t : ClientState)
    (hn : ¬(input.name = "" ∨ (jsTrim input.name).length < 3)) :
    (MockApiClient.createCourse input t).1 =
      Except.ok { data := { id := (maxId t.courses).addOne, name := input.name,
                            description := input.description, duration := input.duration,
                            instructor := input.instructor,
                            enrollmentCount := some 0, isActive := some true },
                  success := true, message := some "Course created successfully" } ∧
    (MockApiClient.createCourse input t).2.courses =
      t.courses ++ [{ id := (maxId t.courses).addOne, name := input.name,
                      description := input.description, duration := input.duration,
                      instructor := input.instructor,
                      enrollmentCount := some 0, isActive := some true }] := by
  have h := createCourse_ok input t hn
  rw [h]
  exact ⟨rfl, rfl⟩

/-- Witness for C10: an input supplying `enrollmentCount = 99` and
`isActive = false` still yields a record with `enrollmentCount = 0` and
`isActive = true`. -/
theorem createCourse_forces_witness :
    (MockApiClient.createCourse
        { name := "Data Engineering", enrollmentCount := some 99, isActive := some false }
        demoState).1 =
      Except.ok { data := { id := JsId.int 6, name := "Data Engineering",
                            enrollmentCount := some 0, isActive := some true },
                  success := true, message := some "Course created successfully" } :=
  (createCourse_forces_enrollment_and_active
      { name := "Data Engineering", enrollmentCount := some 99, isActive := some false }
      demoState (by decide)).1
